import Mathlib

/-!
Verification of the openstorage core: the cluster database read/write
protocol (cluster/database.go), the driver registry (volume/volume.go)
and the NFS driver's volume operations (the nfs package), shallowly
embedded in Lean 4.
-/

namespace OpenStorage

/-! ## Cluster database (cluster/database.go)

The `Database`, `Info` and `Node` types are referenced by
cluster/database.go but declared elsewhere in the cluster package. -/

/-- Modelled from the spec: cluster-wide status, "one of a small set
including initializing" (`StatusInit`). -/
inductive ClusterStatus
  | init
  | other (tag : String)
deriving DecidableEq

/-- Modelled from the spec: `Info` is the cluster-wide metadata carrying the
status enum. -/
structure Info where
  status : ClusterStatus
deriving DecidableEq

/-- Modelled from the spec: a `Node` record is "node-level health/membership,
opaque per-deployment"; represented as an opaque payload. -/
structure Node where
  data : String
deriving DecidableEq

/-- Modelled from the spec: the aggregate cluster record, a cluster `Info`
plus a mapping from node identifier to `Node` record. -/
structure Database where
  cluster : Info
  nodes : List (String × Node)
deriving DecidableEq

/-- Byte strings stored in the key-value store. `raw s` stands for a byte
string that is not the JSON marshalling of any `Database` record (so JSON
decoding fails on it); `encDB db` stands for the output of `json.Marshal`
on `db`. Go's `json.Marshal` on this struct is deterministic, never fails,
never emits the two-byte string of an opening and a closing brace, and
`json.Unmarshal` inverts it. -/
inductive Bytes
  | raw (s : String)
  | encDB (db : Database)
deriving DecidableEq

/-- The literal empty-object marker, the byte string "\x7b\x7d". -/
def emptyObject : Bytes := Bytes.raw "\x7b\x7d"

/-- Model of `json.Marshal` for `Database` (total: marshalling this struct
never fails in Go). -/
def marshal (db : Database) : Bytes := Bytes.encDB db

/-- Model of `json.Unmarshal` into a `Database`: succeeds exactly on
marshalled records. Note `readDatabase` intercepts the empty-object marker
before ever decoding, matching the source. -/
def unmarshal : Bytes → Option Database
  | Bytes.encDB db => some db
  | Bytes.raw _ => none

/-- Result of `kvdb.Get(key)`: a key-value pair, or the recognized
"100: Key not found" error (with a nil pair), or any other store error. -/
inductive GetResult
  | found (v : Bytes)
  | notFound
  | storeError (msg : String)

/-- The shared key-value store, as consumed through the get/put contract:
`get` gives the outcome of `kvdb.Get` per key, and `putOk` says whether
`kvdb.Put` succeeds (store fault model). -/
structure Store where
  get : String → GetResult
  putOk : Bool

/-- Errors surfaced by the cluster database functions. -/
inductive DbError
  | decode
  | store (msg : String)
deriving DecidableEq

/-- The freshly initialized record built at the top of `readDatabase`:
status `StatusInit` and an empty node table. -/
def freshDatabase : Database :=
  { cluster := { status := ClusterStatus.init }, nodes := [] }

/-- `readDatabase` (cluster/database.go:13-39): gets key "cluster/database";
a store error whose text lacks "100: Key not found" is returned with the
default record; a nil pair (key not found) or the empty-object value yields
the default record with no error; otherwise the bytes are unmarshalled, a
decode failure being returned as an error. -/
def readDatabase (s : Store) : Database × Option DbError :=
  match s.get "cluster/database" with
  | GetResult.storeError msg => (freshDatabase, some (DbError.store msg))
  | GetResult.notFound => (freshDatabase, none)
  | GetResult.found v =>
      if v = emptyObject then
        (freshDatabase, none)
      else
        match unmarshal v with
        | some db => (db, none)
        | none => (freshDatabase, some DbError.decode)

/-- `writeDatabase` (cluster/database.go:41-60): marshals the record
(never fails for this struct) and puts it under "cluster/database",
returning any put error. -/
def writeDatabase (s : Store) (db : Database) : Store × Option DbError :=
  let b := marshal db
  if s.putOk then
    ({ s with get := fun k =>
        if k = "cluster/database" then GetResult.found b else s.get k },
     none)
  else
    (s, some (DbError.store "put failed"))

/-! ## Driver registry (volume/volume.go)

The registry is embedded polymorphically over the type `δ` of live
`VolumeDriver` instances; the two Go maps become association lists
with lookup semantics. -/

/-- The error values of the volume package (volume/volume.go:14-22);
`custom` stands for a backend-specific initializer error. -/
inductive VErr
  | errExist
  | errDriverNotFound
  | errEnoEnt
  | errEnomem
  | errEinval
  | errVolDetached
  | errVolAttached
  | errVolHasSnaps
  | errNotSupported
  | custom (msg : String)
deriving DecidableEq

/-- `DriverParams` (volume/volume.go:25). -/
abbrev DriverParams := List (String × String)

/-- `InitFunc` (volume/volume.go:27): the `(VolumeDriver, error)` return
pair is an ok instance when the error is nil, the error otherwise. -/
abbrev InitFunc (δ : Type) := DriverParams → Except VErr δ

/-- First-match lookup in an association list keyed by strings, the
behaviour of a Go map read on the registry's maps. -/
def lookupStr {α : Type} : List (String × α) → String → Option α
  | [], _ => none
  | (k, a) :: rest, key => if k = key then some a else lookupStr rest key

/-- The registry's process-wide state (volume/volume.go:10-12): the
`instances` map of live drivers and the `drivers` map of initializers. -/
structure Registry (δ : Type) where
  instances : List (String × δ)
  drivers : List (String × InitFunc δ)

/-- `Get` (volume/volume.go:144-149): the live instance, or
`ErrDriverNotFound`. -/
def RegGet {δ : Type} (r : Registry δ) (name : String) : Except VErr δ :=
  match lookupStr r.instances name with
  | some v => Except.ok v
  | none => Except.error VErr.errDriverNotFound

/-- `New` (volume/volume.go:151-167): fails with `ErrExist` when an
instance is live, otherwise runs the registered initializer (storing its
instance on success), otherwise fails with `ErrNotSupported`. -/
def RegNew {δ : Type} (r : Registry δ) (name : String) (params : DriverParams) :
    Registry δ × Except VErr δ :=
  match lookupStr r.instances name with
  | some _ => (r, Except.error VErr.errExist)
  | none =>
      match lookupStr r.drivers name with
      | some initFunc =>
          match initFunc params with
          | Except.error e => (r, Except.error e)
          | Except.ok d =>
              ({ r with instances := (name, d) :: r.instances }, Except.ok d)
      | none => (r, Except.error VErr.errNotSupported)

/-- `Register` (volume/volume.go:169-177): adds an initializer, failing
with `ErrExist` when the name is taken. -/
def RegRegister {δ : Type} (r : Registry δ) (name : String) (f : InitFunc δ) :
    Registry δ × Option VErr :=
  match lookupStr r.drivers name with
  | some _ => (r, some VErr.errExist)
  | none => ({ r with drivers := (name, f) :: r.drivers }, none)

/-- The iteration body of the package-level `Shutdown`: walks the
instance entries invoking each instance's `Shutdown()`; the invocations
are recorded as an effect log. -/
def shutdownAll {δ : Type} : List (String × δ) → List δ
  | [] => []
  | (_, d) :: rest => d :: shutdownAll rest

/-- `Shutdown` (volume/volume.go:136-142): calls `Shutdown()` on every
live instance and mutates nothing; the second component is the log of
instances whose `Shutdown()` ran, in iteration order. -/
def RegShutdown {δ : Type} (r : Registry δ) : Registry δ × List δ :=
  (r, shutdownAll r.instances)

/-! ## Volume data model (api/types.go) -/

/-- `Filesystem` (api/types.go:89) is a string type. -/
abbrev Filesystem := String

/-- `VolumeState` (api/types.go:47) is an integer of bit flags. -/
abbrev VolumeState := Nat

/-- `VolumeAvailable` (api/types.go:53), the second bit flag. -/
def VolumeAvailable : VolumeState := 2

/-- `Labels` (api/types.go:69), a name-value map. -/
abbrev Labels := List (String × String)

/-- `VolumeLocator` (api/types.go:73-78). -/
structure VolumeLocator where
  name : String
  volumeLabels : Labels
deriving DecidableEq

/-- `CreateOptions` (api/types.go:81-86). -/
structure CreateOptions where
  failIfExists : Bool
  createFromSnap : String
deriving DecidableEq

/-- `VolumeSpec` (api/types.go:100-122); times and sizes are naturals,
signed Go ints are `Int`. -/
structure VolumeSpec where
  ephemeral : Bool
  size : Nat
  format : Filesystem
  blockSize : Int
  haLevel : Int
  cos : Int
  dedupe : Bool
  snapshotInterval : Int
  configLabels : Labels
deriving DecidableEq

/-- `Volume` (api/types.go:130-159); wall-clock instants are modelled as
natural ticks, the `MachineID` fields as strings. -/
structure Volume where
  id : String
  locator : VolumeLocator
  ctime : Nat
  spec : VolumeSpec
  usage : Nat
  lastScan : Nat
  format : Filesystem
  status : String
  state : VolumeState
  attachedOn : String
  devicePath : String
  attachPath : String
  replicaSet : List String
  error : String
deriving DecidableEq

/-! ## NFS driver (the nfs package)

The driver persists its per-volume `Volume` records through the embedded
`DefaultEnumerator` (`GetVol`, `CreateVol`, `UpdateVol`, `DeleteVol`),
whose code is not part of the sources at hand. Modelled from the spec:
"each driver instance owns (is the sole writer of) the Volume records for
volumes it created" in a key-value substrate — a record table keyed by
volume id, where `GetVol` fails with a not-found condition on an unknown
id and `CreateVol`/`UpdateVol` insert or overwrite the record. OS
primitives (`os.MkdirAll`, `syscall.Mount`, `syscall.Unmount`) are
external collaborators; unmount outcomes are drawn from an oracle and the
unmounted paths recorded as an effect log. -/

/-- `nfsMountPath` (the nfs package). -/
def nfsMountPath : String := "/var/lib/openstorage/nfs/"

/-- Errors returned by the modelled NFS driver operations. -/
inductive NfsErr
  | enoent
  | notMounted (volumeID : String)
  | unmountFailed (path : String)
  | unsupportedFormat (format : String)
deriving DecidableEq

/-- The driver's persisted state: the table of `Volume` records keyed by
volume id. -/
structure NfsState where
  volumes : List (String × Volume)
deriving DecidableEq

/-- Insert-or-overwrite of a record table entry (`CreateVol` followed by
`UpdateVol` semantics). -/
def setVol (vols : List (String × Volume)) (key : String) (v : Volume) :
    List (String × Volume) :=
  match vols with
  | [] => [(key, v)]
  | (k, w) :: rest =>
      if k = key then (k, v) :: rest else (k, w) :: setVol rest key v

/-- `driver.Create` (nfs package): rejects a format other than "nfs" or
empty; otherwise builds the fresh record around the generated id — the
uuid draw and the clock are passed in as `newId` and `now` — creates its
directory and persists it via `CreateVol`/`UpdateVol`. The
`CreateOptions` argument is received but never consulted. -/
def nfsCreate (st : NfsState) (newId : String) (now : Nat)
    (locator : VolumeLocator) (opt : CreateOptions) (spec : VolumeSpec) :
    NfsState × Except NfsErr String :=
  if spec.format ≠ "nfs" ∧ spec.format ≠ "" then
    (st, Except.error (NfsErr.unsupportedFormat spec.format))
  else
    let v : Volume :=
      { id := newId
        locator := locator
        ctime := now
        spec := spec
        usage := 0
        lastScan := now
        format := "nfs"
        status := ""
        state := VolumeAvailable
        attachedOn := ""
        devicePath := nfsMountPath ++ newId
        attachPath := ""
        replicaSet := []
        error := "" }
    (⟨setVol st.volumes newId v⟩, Except.ok newId)

/-- `driver.Unmount` (nfs package): fetches the record, fails when it is
absent or its `AttachPath` is empty, otherwise unmounts `v.AttachPath`
(success per the oracle `os`), clears `AttachPath` and persists the
record; the middle component lists the paths passed to
`syscall.Unmount`. The `mountpath` argument is never consulted. -/
def nfsUnmount (os : String → Bool) (st : NfsState)
    (volumeID : String) (mountpath : String) :
    NfsState × List String × Option NfsErr :=
  match lookupStr st.volumes volumeID with
  | none => (st, [], some NfsErr.enoent)
  | some v =>
      if v.attachPath = "" then
        (st, [], some (NfsErr.notMounted volumeID))
      else if os v.attachPath then
        let v2 := { v with attachPath := "" }
        (⟨setVol st.volumes volumeID v2⟩, [v.attachPath], none)
      else
        (st, [v.attachPath], some (NfsErr.unmountFailed v.attachPath))

/-! ## Concrete states used by the witnesses -/

/-- A store holding no keys at all. -/
def storeAbsent : Store := ⟨fun _ => GetResult.notFound, true⟩

/-- A store whose cluster key holds the empty-object marker. -/
def storeEmptyObject : Store :=
  ⟨fun k => if k = "cluster/database" then GetResult.found emptyObject
            else GetResult.notFound, true⟩

/-- A store whose cluster key holds undecodable bytes. -/
def storeCorrupt : Store :=
  ⟨fun k => if k = "cluster/database" then GetResult.found (Bytes.raw "garbage")
            else GetResult.notFound, true⟩

/-! ## Claim theorems: cluster database -/

/-- C1: on a store where the key "cluster/database" is absent (the
recognized key-not-found condition), and on a store where that key holds
exactly the empty-object marker bytes, `readDatabase` returns a record
with cluster status initializing and an empty node table, and no error. -/
theorem readDatabase_uninitialized_default (s : Store) :
    (s.get "cluster/database" = GetResult.notFound →
      (readDatabase s).1.cluster.status = ClusterStatus.init ∧
      (readDatabase s).1.nodes = [] ∧ (readDatabase s).2 = none) ∧
    (s.get "cluster/database" = GetResult.found emptyObject →
      (readDatabase s).1.cluster.status = ClusterStatus.init ∧
      (readDatabase s).1.nodes = [] ∧ (readDatabase s).2 = none) := by
  constructor
  · intro h
    simp [readDatabase, h, freshDatabase]
  · intro h
    simp [readDatabase, h, freshDatabase]

/-- Witness for C1, at a key-less store and at a store holding the
empty-object marker. -/
theorem readDatabase_uninitialized_default_witness :
    ((readDatabase storeAbsent).1.cluster.status = ClusterStatus.init ∧
      (readDatabase storeAbsent).1.nodes = [] ∧
      (readDatabase storeAbsent).2 = none) ∧
    ((readDatabase storeEmptyObject).1.cluster.status = ClusterStatus.init ∧
      (readDatabase storeEmptyObject).1.nodes = [] ∧
      (readDatabase storeEmptyObject).2 = none) :=
  ⟨(readDatabase_uninitialized_default storeAbsent).1 rfl,
   (readDatabase_uninitialized_default storeEmptyObject).2 rfl⟩

/-- C2: on a store whose cluster key holds bytes that are not the
empty-object marker and do not decode into a `Database`, `readDatabase`
returns a non-nil error (the decode failure is surfaced, never replaced
by the freshly-initialized default). -/
theorem readDatabase_decode_failure (s : Store) (v : Bytes)
    (h1 : s.get "cluster/database" = GetResult.found v)
    (h2 : v ≠ emptyObject) (h3 : unmarshal v = none) :
    (readDatabase s).2 = some DbError.decode := by
  simp [readDatabase, h1, h2, h3]

/-- Witness for C2, at a store holding undecodable bytes. -/
theorem readDatabase_decode_failure_witness :
    (readDatabase storeCorrupt).2 = some DbError.decode :=
  readDatabase_decode_failure storeCorrupt (Bytes.raw "garbage")
    rfl (by decide) rfl

/-- C3: when `writeDatabase db` succeeds and nothing else touches the key,
a subsequent `readDatabase` returns a record equal to `db` and no error. -/
theorem writeDatabase_readDatabase_roundTrip (s : Store) (db : Database)
    (h : (writeDatabase s db).2 = none) :
    readDatabase (writeDatabase s db).1 = (db, none) := by
  by_cases hp : s.putOk
  · simp [writeDatabase, hp, readDatabase, marshal, emptyObject, unmarshal]
  · simp [writeDatabase, hp] at h

/-- Witness for C3: write the fresh record into an empty store and read
it back. -/
theorem writeDatabase_readDatabase_roundTrip_witness :
    readDatabase (writeDatabase storeAbsent freshDatabase).1 =
      (freshDatabase, none) :=
  writeDatabase_readDatabase_roundTrip storeAbsent freshDatabase rfl

/-! ## Claim theorems: driver registry -/

/-- A registry with a live instance under the name "nfs". -/
def regLive : Registry Nat := ⟨[("nfs", 7)], []⟩

/-- A registry with no instances and no initializers. -/
def regEmpty : Registry Nat := ⟨[], []⟩

/-- An initializer that always succeeds with instance 5. -/
def initOk : InitFunc Nat := fun _ => Except.ok 5

/-- A registry with the succeeding initializer registered for "nfs". -/
def regReady : Registry Nat := ⟨[], [("nfs", initOk)]⟩

/-- C4: `New` fails with the already-exists error when a live instance
exists for the name; otherwise, with no registered initializer, it fails
with the not-supported error; otherwise a succeeding initializer's
instance is stored so a subsequent `Get` returns that very instance with
no error; and `Get` on a name with no live instance fails with the
driver-not-found error. -/
theorem registry_new_get_contract {δ : Type} (r : Registry δ) (n : String)
    (params : DriverParams) :
    (∀ d, lookupStr r.instances n = some d →
        RegNew r n params = (r, Except.error VErr.errExist)) ∧
    (lookupStr r.instances n = none → lookupStr r.drivers n = none →
        RegNew r n params = (r, Except.error VErr.errNotSupported)) ∧
    (∀ f d, lookupStr r.instances n = none →
        lookupStr r.drivers n = some f → f params = Except.ok d →
        (RegNew r n params).2 = Except.ok d ∧
        RegGet (RegNew r n params).1 n = Except.ok d) ∧
    (lookupStr r.instances n = none →
        RegGet r n = Except.error VErr.errDriverNotFound) := by
  refine ⟨?_, ?_, ?_, ?_⟩
  · intro d h
    simp [RegNew, h]
  · intro h1 h2
    simp [RegNew, h1, h2]
  · intro f d h1 h2 h3
    simp [RegNew, h1, h2, h3, RegGet, lookupStr]
  · intro h
    simp [RegGet, h]

/-- Witness for C4, exercising all four branches at concrete registries. -/
theorem registry_new_get_contract_witness :
    RegNew regLive "nfs" [] = (regLive, Except.error VErr.errExist) ∧
    RegNew regEmpty "nfs" [] = (regEmpty, Except.error VErr.errNotSupported) ∧
    ((RegNew regReady "nfs" []).2 = Except.ok 5 ∧
      RegGet (RegNew regReady "nfs" []).1 "nfs" = Except.ok 5) ∧
    RegGet regEmpty "nfs" = Except.error VErr.errDriverNotFound :=
  ⟨(registry_new_get_contract regLive "nfs" []).1 7 rfl,
   (registry_new_get_contract regEmpty "nfs" []).2.1 rfl rfl,
   (registry_new_get_contract regReady "nfs" []).2.2.1 initOk 5 rfl rfl rfl,
   (registry_new_get_contract regEmpty "nfs" []).2.2.2 rfl⟩

/-- C5: after one successful `Register n f`, a further `Register n g`
fails with the already-exists error and leaves the whole registry state —
in particular the initializer registered for `n` — unchanged. -/
theorem register_twice_already_exists {δ : Type} (r : Registry δ)
    (n : String) (f g : InitFunc δ) (h : (RegRegister r n f).2 = none) :
    RegRegister (RegRegister r n f).1 n g =
      ((RegRegister r n f).1, some VErr.errExist) ∧
    lookupStr (RegRegister r n f).1.drivers n = some f := by
  cases hl : lookupStr r.drivers n with
  | some f0 => simp [RegRegister, hl] at h
  | none => simp [RegRegister, hl, lookupStr]

/-- Witness for C5 at a concrete registry and two initializers. -/
theorem register_twice_already_exists_witness :
    RegRegister (RegRegister regEmpty "nfs" initOk).1 "nfs"
        (fun _ => Except.ok 6) =
      ((RegRegister regEmpty "nfs" initOk).1, some VErr.errExist) ∧
    lookupStr (RegRegister regEmpty "nfs" initOk).1.drivers "nfs" =
      some initOk :=
  register_twice_already_exists regEmpty "nfs" initOk
    (fun _ => Except.ok 6) rfl

/-- C6: when the registered initializer for `n` fails, `New` returns that
very error with no instance and the registry state unchanged — so `Get n`
still fails with the driver-not-found error and a later `New` with
parameters the initializer accepts still succeeds. -/
theorem new_initializer_failure_no_effect {δ : Type} (r : Registry δ)
    (n : String) (p : DriverParams) (f : InitFunc δ) (e : VErr)
    (h1 : lookupStr r.instances n = none)
    (h2 : lookupStr r.drivers n = some f)
    (h3 : f p = Except.error e) :
    RegNew r n p = (r, Except.error e) ∧
    RegGet r n = Except.error VErr.errDriverNotFound ∧
    (∀ p2 d, f p2 = Except.ok d → (RegNew r n p2).2 = Except.ok d) := by
  refine ⟨?_, ?_, ?_⟩
  · simp [RegNew, h1, h2, h3]
  · simp [RegGet, h1]
  · intro p2 d h4
    simp [RegNew, h1, h2, h4]

/-- An initializer failing on the empty parameter map, succeeding with
instance 9 otherwise. -/
def initPicky : InitFunc Nat := fun p =>
  if p = [] then Except.error (VErr.custom "bad params") else Except.ok 9

/-- A registry with the picky initializer registered for "nfs". -/
def regPicky : Registry Nat := ⟨[], [("nfs", initPicky)]⟩

/-- Witness for C6: the picky initializer rejects the empty parameter map
but a retry with non-empty parameters succeeds. -/
theorem new_initializer_failure_no_effect_witness :
    RegNew regPicky "nfs" [] =
      (regPicky, Except.error (VErr.custom "bad params")) ∧
    RegGet regPicky "nfs" = Except.error VErr.errDriverNotFound ∧
    (RegNew regPicky "nfs" [("path", "/x")]).2 = Except.ok 9 :=
  ⟨(new_initializer_failure_no_effect regPicky "nfs" [] initPicky
      (VErr.custom "bad params") rfl rfl rfl).1,
   (new_initializer_failure_no_effect regPicky "nfs" [] initPicky
      (VErr.custom "bad params") rfl rfl rfl).2.1,
   (new_initializer_failure_no_effect regPicky "nfs" [] initPicky
      (VErr.custom "bad params") rfl rfl rfl).2.2 [("path", "/x")] 9 rfl⟩

/-- `shutdownAll` invokes exactly the instance of each entry, in entry
order. -/
theorem shutdownAll_eq_map {δ : Type} (l : List (String × δ)) :
    shutdownAll l = l.map Prod.snd := by
  induction l with
  | nil => rfl
  | cons hd tl ih => cases hd; simp [shutdownAll, ih]

/-- C9: the package-level `Shutdown` leaves both registry maps unchanged
— every (name, instance) entry and every initializer registration
survives — and its effect log is exactly one `Shutdown()` invocation per
live (name, instance) entry. -/
theorem shutdown_calls_all_and_frames {δ : Type} (r : Registry δ) :
    (RegShutdown r).1 = r ∧
    (RegShutdown r).2 = r.instances.map Prod.snd := by
  exact ⟨rfl, shutdownAll_eq_map r.instances⟩

/-- Witness for C9 at a registry with one live instance. -/
theorem shutdown_calls_all_and_frames_witness :
    (RegShutdown regLive).1 = regLive ∧ (RegShutdown regLive).2 = [7] :=
  ⟨(shutdown_calls_all_and_frames regLive).1,
   (shutdown_calls_all_and_frames regLive).2⟩

/-! ## Claim theorems: NFS driver -/

/-- A minimal volume spec with no requested format. -/
def specPlain : VolumeSpec :=
  { ephemeral := false
    size := 0
    format := ""
    blockSize := 0
    haLevel := 0
    cos := 0
    dedupe := false
    snapshotInterval := 0
    configLabels := [] }

/-- The locator carried by the pre-existing volume of the C7 scenario. -/
def locVol1 : VolumeLocator := { name := "vol1", volumeLabels := [] }

/-- A persisted volume with id "a" carrying the locator `locVol1`. -/
def volExisting : Volume :=
  { id := "a"
    locator := locVol1
    ctime := 0
    spec := specPlain
    usage := 0
    lastScan := 0
    format := "nfs"
    status := ""
    state := VolumeAvailable
    attachedOn := ""
    devicePath := nfsMountPath ++ "a"
    attachPath := ""
    replicaSet := []
    error := "" }

/-- A driver state already holding a volume whose locator is `locVol1`. -/
def stExisting : NfsState := ⟨[("a", volExisting)]⟩

/-- C7 (code bug in `driver.Create`, nfs package): with `FailIfExists`
set and a persisted volume whose locator equals the requested one, the
NFS driver's `Create` does not fail with the already-exists error — it
never consults the options or the existing records, and mints and stores
a fresh duplicate volume — contradicting the `ProtoDriver.Create`
contract documented in volume/volume.go:56-59. -/
theorem nfsCreate_ignores_failIfExists :
    (nfsCreate stExisting "b" 1 locVol1
        { failIfExists := true, createFromSnap := "" } specPlain).2 =
      Except.ok "b" ∧
    lookupStr (nfsCreate stExisting "b" 1 locVol1
        { failIfExists := true, createFromSnap := "" } specPlain).1.volumes
        "b" ≠ none := by
  constructor
  · rfl
  · decide

/-- C8: `Unmount` on a volume whose `AttachPath` is empty fails with the
invalid-state (not mounted) error, performs no unmount syscall and leaves
the persisted record table untouched. -/
theorem nfsUnmount_empty_attachPath_no_mutation (os : String → Bool)
    (st : NfsState) (volumeID mountpath : String) (v : Volume)
    (h1 : lookupStr st.volumes volumeID = some v)
    (h2 : v.attachPath = "") :
    nfsUnmount os st volumeID mountpath =
      (st, [], some (NfsErr.notMounted volumeID)) := by
  simp [nfsUnmount, h1, h2]

/-- Witness for C8 at a state holding one unattached volume. -/
theorem nfsUnmount_empty_attachPath_no_mutation_witness :
    nfsUnmount (fun _ => true) stExisting "a" "/mnt/somewhere" =
      (stExisting, [], some (NfsErr.notMounted "a")) :=
  nfsUnmount_empty_attachPath_no_mutation (fun _ => true) stExisting
    "a" "/mnt/somewhere" volExisting rfl rfl

/-- C10: the NFS driver's `Unmount` ignores its `mountpath` argument: for
a volume with non-empty `AttachPath` the outcome is identical for any two
supplied mountpaths, the single path passed to the unmount syscall is
`v.AttachPath`, and on syscall success the record is persisted with
`AttachPath` cleared. -/
theorem nfsUnmount_uses_attachPath_not_arg (os : String → Bool)
    (st : NfsState) (volumeID mountpath mountpath2 : String) (v : Volume)
    (h1 : lookupStr st.volumes volumeID = some v)
    (h2 : v.attachPath ≠ "") :
    nfsUnmount os st volumeID mountpath =
      nfsUnmount os st volumeID mountpath2 ∧
    (nfsUnmount os st volumeID mountpath).2.1 = [v.attachPath] ∧
    (os v.attachPath = true →
      nfsUnmount os st volumeID mountpath =
        (⟨setVol st.volumes volumeID { v with attachPath := "" }⟩,
         [v.attachPath], none)) := by
  by_cases h3 : os v.attachPath <;>
    simp [nfsUnmount, h1, h2, h3]

/-- A persisted volume with id "m" mounted at "/mnt/a". -/
def volMounted : Volume := { volExisting with id := "m", attachPath := "/mnt/a" }

/-- A driver state holding the mounted volume. -/
def stMounted : NfsState := ⟨[("m", volMounted)]⟩

/-- Witness for C10: unmounting with an unrelated mountpath argument
still unmounts "/mnt/a" and clears the record's `AttachPath`. -/
theorem nfsUnmount_uses_attachPath_not_arg_witness :
    nfsUnmount (fun _ => true) stMounted "m" "/mnt/other" =
      nfsUnmount (fun _ => true) stMounted "m" "/elsewhere" ∧
    (nfsUnmount (fun _ => true) stMounted "m" "/mnt/other").2.1 =
      ["/mnt/a"] ∧
    nfsUnmount (fun _ => true) stMounted "m" "/mnt/other" =
      (⟨setVol stMounted.volumes "m" { volMounted with attachPath := "" }⟩,
       ["/mnt/a"], none) := by
  have h := nfsUnmount_uses_attachPath_not_arg (fun _ => true) stMounted
    "m" "/mnt/other" "/elsewhere" volMounted rfl (by decide)
  exact ⟨h.1, h.2.1, h.2.2 rfl⟩

end OpenStorage
